import Mathlib

/-!
# Verification of the Lemon AI tutorial notebook
  (docs/extras/integrations/tools/lemonai.ipynb)

The repository consists of a single documentation notebook.  Its observable
artifacts are:

* the example `lemonai.log` contents (four lines, format
  `<timestamp> - <run_identifier> - <tool_name>`),
* the example `lemonai.json` workflow-definition file,
* the quick-start script: three code cells of straight-line Python
  (imports, environment-variable assignments, plain assignments, and a
  single call to `execute_workflow`).

This file embeds those artifacts and the script shallowly and proves the
documented properties about them.
-/

namespace LemonAI

/-! ## Log-line syntax: splitting on the three-character separator " - " -/

/-- Split a character list on every occurrence of the three-character
separator `' '`, `'-'`, `' '` (the `" - "` field separator of the log
format), leftmost-first.  `acc` holds the current field, reversed. -/
def splitFields : List Char → List Char → List (List Char)
  | [], acc => [acc.reverse]
  | ' ' :: '-' :: ' ' :: rest, acc => acc.reverse :: splitFields rest []
  | c :: rest, acc => splitFields rest (c :: acc)

/-- Numeric value of a decimal digit character. -/
def digitVal (c : Char) : Nat := c.toNat - 48

/-- Value of a list of decimal digit characters, most significant first. -/
def digitsVal (l : List Char) : Nat := l.foldl (fun n c => n * 10 + digitVal c) 0

/-! ## ISO-8601 timestamps with UTC offset -/

/-- An ISO-8601 extended-format timestamp with a fractional second part and
a numeric UTC offset, e.g. `2023-06-26T11:50:27.708785+0100`. -/
structure Timestamp where
  year : Nat
  month : Nat
  day : Nat
  hour : Nat
  minute : Nat
  second : Nat
  /-- the fractional part, normalised to microseconds -/
  micros : Nat
  /-- `true` for a `+hhmm` offset, `false` for `-hhmm` -/
  offsetNonneg : Bool
  offsetHours : Nat
  offsetMinutes : Nat
  deriving Repr, DecidableEq

/-- Pad or truncate a fractional-digit list to exactly six digits
(microsecond precision). -/
def fracToMicros (frac : List Char) : Nat :=
  digitsVal ((frac ++ ['0', '0', '0', '0', '0', '0']).take 6)

/-- Parse `YYYY-MM-DDThh:mm:ss.f+hhmm` (one or more fractional digits, the
offset sign either `+` or `-`), validating digit positions and field
ranges.  Returns `none` on any malformed input. -/
def parseTimestamp (l : List Char) : Option Timestamp :=
  match l with
  | y1 :: y2 :: y3 :: y4 :: '-' :: mo1 :: mo2 :: '-' :: d1 :: d2 :: 'T' ::
    h1 :: h2 :: ':' :: mi1 :: mi2 :: ':' :: s1 :: s2 :: '.' :: rest =>
    let frac := rest.takeWhile Char.isDigit
    let tail := rest.dropWhile Char.isDigit
    match tail with
    | sgn :: o1 :: o2 :: o3 :: o4 :: [] =>
      if ([y1, y2, y3, y4, mo1, mo2, d1, d2, h1, h2, mi1, mi2, s1, s2,
           o1, o2, o3, o4].all Char.isDigit
          && (sgn == '+' || sgn == '-') && !frac.isEmpty) then
        let mo := digitsVal [mo1, mo2]
        let d := digitsVal [d1, d2]
        let h := digitsVal [h1, h2]
        let mi := digitsVal [mi1, mi2]
        let s := digitsVal [s1, s2]
        let oh := digitsVal [o1, o2]
        let om := digitsVal [o3, o4]
        if 1 ≤ mo && mo ≤ 12 && 1 ≤ d && d ≤ 31 && h ≤ 23 && mi ≤ 59
            && s ≤ 59 && oh ≤ 23 && om ≤ 59 then
          some ⟨digitsVal [y1, y2, y3, y4], mo, d, h, mi, s,
                fracToMicros frac, sgn == '+', oh, om⟩
        else none
      else none
    | _ => none
  | _ => none

/-- Order-preserving numeric key of a timestamp, in microseconds: the local
date-time flattened (every month given 32 days, every year 13 months, so
the flattening is strictly monotone in the calendar fields), with the UTC
offset subtracted. -/
def Timestamp.key (t : Timestamp) : Int :=
  let localMicros : Nat :=
    (((((t.year * 13 + t.month) * 32 + t.day) * 24 + t.hour) * 60
        + t.minute) * 60 + t.second) * 1000000 + t.micros
  let offsetMicros : Nat := (t.offsetHours * 60 + t.offsetMinutes) * 60000000
  if t.offsetNonneg then (localMicros : Int) - offsetMicros
  else (localMicros : Int) + offsetMicros

/-! ## UUIDs -/

/-- Split a character list on a single separator character. -/
def splitOnChar (sep : Char) : List Char → List Char → List (List Char)
  | [], acc => [acc.reverse]
  | c :: rest, acc =>
    if c == sep then acc.reverse :: splitOnChar sep rest []
    else splitOnChar sep rest (c :: acc)

/-- Hexadecimal digit characters (either case). -/
def isHexChar (c : Char) : Bool :=
  c.isDigit || ('a' ≤ c && c ≤ 'f') || ('A' ≤ c && c ≤ 'F')

/-- A textual UUID: five groups of hexadecimal digits of lengths
8-4-4-4-12, separated by `'-'`. -/
def isUUID (l : List Char) : Bool :=
  let parts := splitOnChar '-' l []
  parts.map List.length == [8, 4, 4, 4, 12]
    && parts.all (fun p => p.all isHexChar)

/-! ## Log records -/

/-- One parsed line of `lemonai.log`:
`<timestamp> - <run_identifier> - <tool_name>`. -/
structure LogRecord where
  timestamp : Timestamp
  runId : String
  tool : String
  deriving Repr, DecidableEq

/-- Parse one log line: exactly three `" - "`-separated fields, the first
a valid offset timestamp, the second a valid UUID, the third a non-empty
tool name. -/
def parseLogLine (line : String) : Option LogRecord :=
  match splitFields line.data [] with
  | [f1, f2, f3] =>
    match parseTimestamp f1 with
    | some ts =>
      if isUUID f2 && !f3.isEmpty then
        some ⟨ts, String.mk f2, String.mk f3⟩
      else none
    | none => none
  | _ => none

/-- The four example lines of `lemonai.log` shown in the notebook. -/
def logLines : List String :=
  ["2023-06-26T11:50:27.708785+0100 - b5f91c59-8487-45c2-800a-156eac0c7dae - hackernews-get-user",
   "2023-06-26T11:50:39.624035+0100 - b5f91c59-8487-45c2-800a-156eac0c7dae - airtable-append-data",
   "2023-06-26T11:58:32.925228+0100 - 5efe603c-9898-4143-b99a-55b50007ed9d - hackernews-get-user",
   "2023-06-26T11:58:43.988788+0100 - 5efe603c-9898-4143-b99a-55b50007ed9d - airtable-append-data"]

/-- The example log, parsed. -/
def logRecords : List LogRecord := logLines.filterMap parseLogLine

/-- The ordered tool names of the lines of the example log carrying run
identifier `id`, in file order. -/
def toolsOfRun (id : String) : List String :=
  (logRecords.filter (fun r => r.runId == id)).map (fun r => r.tool)

/-- Collapse a list into its maximal runs of equal adjacent elements,
each paired with the run's length. -/
def groupRuns : List String → List (String × Nat)
  | [] => []
  | x :: rest =>
    match groupRuns rest with
    | [] => [(x, 1)]
    | (y, n) :: gs =>
      if x == y then (x, n + 1) :: gs else (x, 1) :: (y, n) :: gs

/-- The list of integers is strictly ascending: each element is strictly
smaller than the next. -/
def strictlyAscending : List Int → Bool
  | [] => true
  | [_] => true
  | a :: b :: rest => a < b && strictlyAscending (b :: rest)

/-! ## Workflow definitions (`lemonai.json`) -/

/-- A JSON value (the subset of JSON needed to model the
workflow-definition file; `num` carries an integer since no fractional
numbers occur in the format). -/
inductive Json where
  | null
  | bool (b : Bool)
  | num (n : Int)
  | str (s : String)
  | arr (elems : List Json)
  | obj (fields : List (String × Json))
  deriving Repr

/-- A workflow descriptor: a statically named, ordered sequence of tool
identifiers. -/
structure Workflow where
  name : String
  description : String
  tools : List String
  deriving Repr, DecidableEq

/-- Decode a JSON string. -/
def decodeString : Json → Option String
  | .str s => some s
  | _ => none

/-- Decode a JSON array of strings, preserving order. -/
def decodeStringList : Json → Option (List String)
  | .arr xs => xs.mapM decodeString
  | _ => none

/-- Decode one workflow object: exactly three fields, which must be
`name` (a string), `description` (a string) and `tools` (a list of
strings) — no extra and no missing field is accepted. -/
def decodeWorkflow : Json → Option Workflow
  | .obj fields =>
    if fields.length == 3 then
      match fields.lookup "name", fields.lookup "description",
            fields.lookup "tools" with
      | some n, some d, some t => do
        let name ← decodeString n
        let description ← decodeString d
        let tools ← decodeStringList t
        some ⟨name, description, tools⟩
      | _, _, _ => none
    else none
  | _ => none

/-- Decode a workflow-definition file: a JSON sequence of workflow
objects. -/
def decodeWorkflows : Json → Option (List Workflow)
  | .arr xs => xs.mapM decodeWorkflow
  | _ => none

/-- The example `lemonai.json` of the notebook, transliterated as a JSON
value. -/
def lemonaiJsonExample : Json :=
  .arr
    [.obj
      [("name", .str "Hackernews Airtable User Workflow"),
       ("description",
        .str "retrieves user data from Hackernews and appends it to a table in Airtable"),
       ("tools", .arr [.str "hackernews-get-user", .str "airtable-append-data"])]]

/-- The workflow the example `lemonai.json` defines. -/
def hackernewsAirtableWorkflow : Workflow :=
  { name := "Hackernews Airtable User Workflow",
    description :=
      "retrieves user data from Hackernews and appends it to a table in Airtable",
    tools := ["hackernews-get-user", "airtable-append-data"] }

/-! ## Credential environment-variable naming convention -/

/-- The credential kinds of the documented convention: authentication
strings for API keys and for access tokens. -/
def credentialKinds : List String :=
  ["API_KEY", "SECRET_KEY", "SUBSCRIPTION_KEY", "ACCESS_KEY",
   "ACCESS_TOKEN", "SECRET_TOKEN"]

/-- `name` has the form `{TOOL}_{KIND}` for a non-empty tool name and one
of the six credential kinds. -/
def matchesCredentialConvention (name : String) : Bool :=
  credentialKinds.any (fun kind =>
    (('_' :: kind.data).isSuffixOf name.data)
      && kind.length + 1 < name.length)

/-! ## The quick-start script

The three code cells of the notebook are straight-line Python: imports,
assignments to variables and to `os.environ`, bare docstring expressions,
and one trailing call to `execute_workflow`.  The statement language below
has exactly those constructs — no loop, conditional, recursion or local
function definition occurs in the source. -/

/-- Outcome of the external server's handling of a workflow request:
`execute_workflow` returns control once the server has completed or
failed the requested workflow.  The outcome is an oracle parameter of the
embedding — the repository contains no logic deciding it. -/
inductive ExtOutcome where
  | completed
  | failed
  deriving Repr, DecidableEq

/-- A Python runtime value occurring in the script. -/
inductive Value where
  /-- a string -/
  | str (s : String)
  /-- an LLM client handle, `OpenAI(temperature=...)` -/
  | llm (temperature : Nat)
  /-- the opaque result of the external `execute_workflow` call -/
  | external (o : ExtOutcome)
  deriving Repr, DecidableEq

/-- One piece of a Python f-string: either a literal or an interpolated
variable. -/
inductive FPart where
  | lit (s : String)
  | interp (x : String)
  deriving Repr, DecidableEq

/-- An expression of the script. -/
inductive Expr where
  /-- a string literal -/
  | strLit (s : String)
  /-- a variable reference -/
  | var (x : String)
  /-- an f-string -/
  | fstr (parts : List FPart)
  /-- `OpenAI(temperature=...)`: locally constructs an LLM client handle -/
  | OpenAI (temperature : Nat)
  /-- `execute_workflow(llm=..., prompt_string=...)`: delegates to the
  external server, with the two keyword arguments of the source -/
  | execute_workflow (llm : Expr) (prompt_string : Expr)
  deriving Repr, DecidableEq

/-- A statement of the script. -/
inductive Stmt where
  /-- `import m` / `from m import n1, ...` -/
  | importMod (module : String) (names : List String)
  /-- a bare docstring expression statement -/
  | docstring (s : String)
  /-- `x = e` -/
  | assign (x : String) (e : Expr)
  /-- `os.environ["k"] = e` -/
  | assignEnv (key : String) (e : Expr)
  /-- a bare expression statement: the value is discarded -/
  | exprStmt (e : Expr)
  deriving Repr, DecidableEq

/-- An externally observable event of a script run. -/
inductive Event where
  /-- a write to `os.environ` -/
  | envWrite (key value : String)
  /-- the call into the external server, with the values passed for the
  keyword arguments `llm` and `prompt_string`, and the outcome the server
  reported back -/
  | workflowCall (llm : Value) (prompt_string : Value) (outcome : ExtOutcome)
  deriving Repr, DecidableEq

/-- `Event.isWorkflowCall e` holds of exactly the external
`execute_workflow` calls. -/
def Event.isWorkflowCall : Event → Bool
  | .workflowCall _ _ _ => true
  | _ => false

/-- `Event.isEnvWrite e` holds of exactly the environment-variable
writes. -/
def Event.isEnvWrite : Event → Bool
  | .envWrite _ _ => true
  | _ => false

/-- `Value.isExternal v` holds of exactly the opaque results of the
external call. -/
def Value.isExternal : Value → Bool
  | .external _ => true
  | _ => false

/-- The interpreter state: variable bindings, the process environment
and the trace of observable events, oldest first. -/
structure PyState where
  vars : List (String × Value)
  env : List (String × String)
  events : List Event
  deriving Repr, DecidableEq

/-- Update an association list at a key: overwrite in place if present,
append otherwise. -/
def setAssoc : List (String × String) → String → String → List (String × String)
  | [], k, v => [(k, v)]
  | (k', v') :: rest, k, v =>
    if k' == k then (k, v) :: rest else (k', v') :: setAssoc rest k v

/-- Evaluate an expression: returns its value and the observable events
it emits, or `none` on a dynamic error (an unbound variable, a non-string
interpolation).  `o` is the external server's outcome oracle. -/
def evalExpr (o : ExtOutcome) (st : PyState) : Expr → Option (Value × List Event)
  | .strLit s => some (.str s, [])
  | .var x => (st.vars.lookup x).map (fun v => (v, []))
  | .fstr parts => do
    let pieces ← parts.mapM (fun p =>
      match p with
      | .lit s => some s
      | .interp x =>
        match st.vars.lookup x with
        | some (.str s) => some s
        | _ => none)
    some (.str (String.join pieces), [])
  | .OpenAI t => some (.llm t, [])
  | .execute_workflow llmE promptE => do
    let (llmV, ev1) ← evalExpr o st llmE
    let (promptV, ev2) ← evalExpr o st promptE
    some (.external o, ev1 ++ ev2 ++ [.workflowCall llmV promptV o])

/-- Execute one statement. -/
def evalStmt (o : ExtOutcome) (st : PyState) : Stmt → Option PyState
  | .importMod _ _ => some st
  | .docstring _ => some st
  | .assign x e => do
    let (v, evs) ← evalExpr o st e
    some { st with vars := st.vars ++ [(x, v)], events := st.events ++ evs }
  | .assignEnv k e => do
    let (v, evs) ← evalExpr o st e
    match v with
    | .str s =>
      some { st with env := setAssoc st.env k s,
                     events := st.events ++ evs ++ [.envWrite k s] }
    | _ => none
  | .exprStmt e => do
    let (_, evs) ← evalExpr o st e
    some { st with events := st.events ++ evs }

/-- Execute a list of statements in order. -/
def evalStmts (o : ExtOutcome) : PyState → List Stmt → Option PyState
  | st, [] => some st
  | st, s :: rest => do
    let st' ← evalStmt o st s
    evalStmts o st' rest

/-- The f-string assigned to `prompt` in the quick-start, piece by
piece. -/
def promptParts : List FPart :=
  [.lit "Read information from Hackernews for user ",
   .interp "hackernews_username",
   .lit " and then write the results to\nAirtable (baseId: ",
   .interp "airtable_base_id",
   .lit ", tableId: ",
   .interp "airtable_table_id",
   .lit "). Only write the fields \"username\", \"karma\"\nand \"created_at_i\". Please make sure that Airtable does NOT automatically convert the field types.\n"]

/-- The quick-start script: the notebook's three code cells, in execution
order. -/
def script : List Stmt :=
  [ -- cell 1
   .importMod "os" [],
   .importMod "lemonai" ["execute_workflow"],
   .importMod "langchain" ["OpenAI"],
   -- cell 2
   .docstring " Load all relevant API Keys and Access Tokens into your environment variables ",
   .assignEnv "OPENAI_API_KEY" (.strLit "*INSERT OPENAI API KEY HERE*"),
   .assignEnv "AIRTABLE_ACCESS_TOKEN" (.strLit "*INSERT AIRTABLE TOKEN HERE*"),
   -- cell 3
   .assign "hackernews_username" (.strLit "*INSERT HACKERNEWS USERNAME HERE*"),
   .assign "airtable_base_id" (.strLit "*INSERT BASE ID HERE*"),
   .assign "airtable_table_id" (.strLit "*INSERT TABLE ID HERE*"),
   .docstring " Define your instruction to be given to your LLM ",
   .assign "prompt" (.fstr promptParts),
   .docstring "\nUse the Lemon AI execute_workflow wrapper \nto run your Langchain agent in combination with Lemon AI  \n",
   .assign "model" (.OpenAI 0),
   .exprStmt (.execute_workflow (.var "model") (.var "prompt"))]

/-- Run the quick-start script from an empty state, the external server's
outcome being `o`. -/
def evalScript (o : ExtOutcome) : Option PyState :=
  evalStmts o ⟨[], [], []⟩ script

/-- The string the `prompt` f-string evaluates to. -/
def promptText : String :=
  "Read information from Hackernews for user *INSERT HACKERNEWS USERNAME HERE* and then write the results to\nAirtable (baseId: *INSERT BASE ID HERE*, tableId: *INSERT TABLE ID HERE*). Only write the fields \"username\", \"karma\"\nand \"created_at_i\". Please make sure that Airtable does NOT automatically convert the field types.\n"

/-- The names of the environment variables the script writes, in
syntactic order. -/
def scriptEnvKeys : List String :=
  script.filterMap (fun s =>
    match s with
    | .assignEnv k _ => some k
    | _ => none)

/-! ## Theorems -/

/-- Claim C1: the sole operation the tutorial exposes is
`execute_workflow`, invoked exactly once, with an LLM client handle for
the keyword argument `llm` and a free-text instruction string for the
keyword argument `prompt_string`; control returns with the external
server's outcome, and no code in the repository performs tool selection
or workflow execution itself: whatever outcome `o` the external server
reports, the run's trace contains exactly one external-call event, its
`llm` argument is the `OpenAI(temperature=0)` client handle, its
`prompt_string` argument is the prompt string, and its outcome is the
server's. -/
theorem execute_workflow_sole_operation :
    ∀ o : ExtOutcome,
      (evalScript o).map (fun st => st.events.filter Event.isWorkflowCall) =
        some [.workflowCall (.llm 0) (.str promptText) o] := by
  intro o
  cases o <;> rfl

/-- Claim C2: every credential environment variable the quick-start
stores is named `{TOOL}_{KIND}` with `KIND` one of `API_KEY`,
`SECRET_KEY`, `SUBSCRIPTION_KEY`, `ACCESS_KEY`, `ACCESS_TOKEN`,
`SECRET_TOKEN`: the script writes exactly `OPENAI_API_KEY` and
`AIRTABLE_ACCESS_TOKEN`, and both match the convention. -/
theorem scriptEnvKeys_match_convention :
    scriptEnvKeys = ["OPENAI_API_KEY", "AIRTABLE_ACCESS_TOKEN"] ∧
      scriptEnvKeys.all matchesCredentialConvention = true := by
  constructor <;> decide

/-- Claim C3: each of the four lines of the example `lemonai.log` splits
into exactly three `" - "`-separated fields — a valid ISO-8601 offset
timestamp, a valid UUID and a tool name — i.e. `parseLogLine` succeeds on
every line. -/
theorem logLines_parse :
    logLines.length = 4 ∧
      logLines.all (fun l => (parseLogLine l).isSome) = true := by
  constructor <;> decide

/-- Claim C4: the example `lemonai.json` is a JSON sequence of objects
with exactly the fields `name` (string), `description` (string) and
`tools` (ordered list of strings); it decodes to the one-element workflow
list. -/
theorem lemonaiJsonExample_decodes :
    decodeWorkflows lemonaiJsonExample = some [hackernewsAirtableWorkflow] := by
  decide

/-- Claim C5: for every run identifier occurring in the example log, the
tool names of that run's lines, in file order, equal the ordered `tools`
list of the statically defined workflow — `hackernews-get-user` followed
by `airtable-append-data`; there are two such run identifiers. -/
theorem logged_runs_refine_workflow :
    (logRecords.map (fun r => r.runId)).dedup.all
        (fun id => toolsOfRun id == hackernewsAirtableWorkflow.tools) = true ∧
      (logRecords.map (fun r => r.runId)).dedup.length = 2 := by
  constructor <;> decide

/-- Claim C6: in the example log, lines sharing a run identifier are
contiguous — collapsing the run-identifier column into maximal adjacent
runs yields pairwise distinct identifiers — and there are exactly two
groups of two lines each. -/
theorem runIds_contiguous :
    groupRuns (logRecords.map (fun r => r.runId)) =
        [("b5f91c59-8487-45c2-800a-156eac0c7dae", 2),
         ("5efe603c-9898-4143-b99a-55b50007ed9d", 2)] ∧
      ((groupRuns (logRecords.map (fun r => r.runId))).map Prod.fst).Nodup := by
  constructor <;> decide

/-- Claim C7: in the example log, the timestamps are strictly increasing
in file order: the numeric key of each of the four timestamps is
strictly greater than that of the preceding line. -/
theorem timestamps_strictly_increasing :
    strictlyAscending (logRecords.map (fun r => r.timestamp.key)) = true ∧
      logRecords.length = 4 := by
  constructor <;> decide

/-- Claim C8: the script is straight-line — fourteen statements, each an
import, a docstring, an assignment, an environment assignment or a bare
call — so its evaluation is trivially total: it runs to completion for
every external outcome. -/
theorem script_total :
    (∀ o : ExtOutcome, (evalScript o).isSome = true) ∧ script.length = 14 := by
  refine ⟨fun o => ?_, rfl⟩
  cases o <;> rfl

/-- Claim C9: the quick-start discards the return value of
`execute_workflow`: the final variable bindings and environment are the
same for every external outcome, no variable holds the external call's
result, and the only locally observable effects are the two
environment-variable writes (plus the externally written log). -/
theorem call_result_discarded :
    ∀ o : ExtOutcome,
      (evalScript o).map PyState.vars =
          some [("hackernews_username", .str "*INSERT HACKERNEWS USERNAME HERE*"),
                ("airtable_base_id", .str "*INSERT BASE ID HERE*"),
                ("airtable_table_id", .str "*INSERT TABLE ID HERE*"),
                ("prompt", .str promptText),
                ("model", .llm 0)] ∧
        (evalScript o).map PyState.env =
          some [("OPENAI_API_KEY", "*INSERT OPENAI API KEY HERE*"),
                ("AIRTABLE_ACCESS_TOKEN", "*INSERT AIRTABLE TOKEN HERE*")] ∧
        (evalScript o).map
            (fun st => st.vars.all (fun p => !p.2.isExternal)) = some true ∧
        (evalScript o).map
            (fun st => (st.events.filter Event.isEnvWrite).length) = some 2 := by
  intro o
  cases o <;> exact ⟨rfl, rfl, rfl, rfl⟩

/-- Claim C10: in execution order, both credential environment variables
are written strictly before `execute_workflow` is invoked, and no other
environment variable is ever written: for every external outcome the
event trace is exactly the `OPENAI_API_KEY` write, then the
`AIRTABLE_ACCESS_TOKEN` write, then the single external call. -/
theorem env_writes_precede_call :
    ∀ o : ExtOutcome,
      (evalScript o).map PyState.events =
        some [.envWrite "OPENAI_API_KEY" "*INSERT OPENAI API KEY HERE*",
              .envWrite "AIRTABLE_ACCESS_TOKEN" "*INSERT AIRTABLE TOKEN HERE*",
              .workflowCall (.llm 0) (.str promptText) o] := by
  intro o
  cases o <;> rfl

end LemonAI
